import Mathlib

/-!
Verification of the AI-analysis routing layer of `src/utils/ai_analyzer.py`.

The module is embedded shallowly:
* wall-clock time is a natural number of seconds; `datetime.now()` becomes an
  explicit `now` parameter, and `time.sleep(w)` advances the simulated clock
  by `w`;
* the mutable module-level dictionaries `RATE_LIMIT` and `request_counter`
  become explicit values threaded through the functions;
* the external provider call `gemini_model.generate_content(prompt)` is
  abstracted by a stub `calls : Nat → CallOutcome` giving, for each attempt
  index, either the returned text or the message of the raised exception;
* a raised `RateLimitExceeded` becomes an explicit constructor carrying the
  state as mutated before the raise.
-/

namespace AIAnalyzer

/-- Python `list.isPrefixOf`-style test is `List.isPrefixOf`; this is the
substring test `pat in s` on the underlying character lists. -/
def containsSub (pat : List Char) : List Char → Bool
  | [] => List.isPrefixOf pat []
  | c :: cs => List.isPrefixOf pat (c :: cs) || containsSub pat cs

/-- Python `pat in s` for strings. -/
def containsStr (s pat : String) : Bool := containsSub pat.data s.data

/-- Python `s.startswith(p)`. -/
def startswith (s p : String) : Bool := List.isPrefixOf p.data s.data

/-- ASCII lowering of one character (the error messages classified by the
adapter are ASCII, so this matches Python `str.lower` on them). -/
def lowerChar (c : Char) : Char :=
  if 65 ≤ c.toNat && c.toNat ≤ 90 then Char.ofNat (c.toNat + 32) else c

/-- Python `s.lower()`. -/
def toLowerStr (s : String) : String := ⟨s.data.map lowerChar⟩

/-- ASCII raising of one character. -/
def upperChar (c : Char) : Char :=
  if 97 ≤ c.toNat && c.toNat ≤ 122 then Char.ofNat (c.toNat - 32) else c

/-- Python `s.upper()`. -/
def toUpperStr (s : String) : String := ⟨s.data.map upperChar⟩

/-- Python whitespace for `str.strip()`. -/
def isSpaceChar (c : Char) : Bool :=
  c == ' ' || c == '\t' || c == '\n' || c == '\r'

/-- Python `s.strip()`. -/
def stripStr (s : String) : String :=
  ⟨((s.data.dropWhile isSpaceChar).reverse.dropWhile isSpaceChar).reverse⟩

/-- Python `s.split(sep)` for a one-character separator. -/
def splitChar (sep : Char) (l : List Char) : List (List Char) :=
  l.foldr
    (fun c acc =>
      match acc with
      | [] => [[c]]
      | cur :: rest => if c == sep then [] :: cur :: rest else (c :: cur) :: rest)
    [[]]

/-- Python `s.split(':', 1)`: text before the first colon, and, when a colon
occurs, the text after it. -/
def splitFirstColon : List Char → List Char × Option (List Char)
  | [] => ([], none)
  | c :: cs =>
    if c == ':' then ([], some cs)
    else
      let r := splitFirstColon cs
      (c :: r.1, r.2)

/-! ## Rate limiting (`RATE_LIMIT`, `request_counter`, `check_rate_limit_sync`) -/

/-- One entry of the module-level `RATE_LIMIT` dictionary. -/
structure ProviderConfig where
  requests_per_minute : Nat
  requests_per_day : Nat
  cooldown_seconds : Nat
deriving Repr, DecidableEq

/-- One entry of the module-level `request_counter` dictionary.  Times are in
seconds of the simulated clock. -/
structure Counter where
  count : Nat
  last_reset : Nat
  last_request : Option Nat
deriving Repr, DecidableEq

/-- The hard-coded gemini entry of `RATE_LIMIT`. -/
def gemini_config : ProviderConfig :=
  { requests_per_minute := 10, requests_per_day := 1000, cooldown_seconds := 6 }

/-- The hard-coded claude entry of `RATE_LIMIT`. -/
def claude_config : ProviderConfig :=
  { requests_per_minute := 20, requests_per_day := 5000, cooldown_seconds := 3 }

/-- The module-level `RATE_LIMIT` dictionary as a partial lookup
(`RATE_LIMIT.get provider` with no default). -/
def RATE_LIMIT (provider : String) : Option ProviderConfig :=
  if provider = "gemini" then some gemini_config
  else if provider = "claude" then some claude_config
  else none

/-- The module-level `request_counter` dictionary: it has exactly the keys
`"gemini"` and `"claude"`. -/
structure RLState where
  gemini : Counter
  claude : Counter
deriving Repr, DecidableEq

/-- `request_counter.get(provider, request_counter["gemini"])`: any provider
other than `"claude"` resolves to the gemini counter object. -/
def getCounter (s : RLState) (provider : String) : Counter :=
  if provider = "claude" then s.claude else s.gemini

/-- Writing back the counter object resolved by `getCounter` (the Python code
mutates the shared dictionary entry in place). -/
def setCounter (s : RLState) (provider : String) (c : Counter) : RLState :=
  if provider = "claude" then { s with claude := c } else { s with gemini := c }

/-- `timedelta(days=1)` in seconds. -/
def DAY_SECONDS : Nat := 86400

/-- Outcome of one `check_rate_limit_sync` call on a single counter: either
the permit, with the updated counter and the clock after any cooldown sleep,
or a raised `RateLimitExceeded`, with the counter as possibly mutated by the
daily reset performed before the raise. -/
inductive AcquireResult where
  | ok (c : Counter) (now : Nat)
  | rateLimited (c : Counter) (msg : String)
deriving Repr, DecidableEq

/-- The daily-reset block (`# 重置每日计数`): zero the count and restart the
window when strictly more than one day elapsed since `last_reset`. -/
def daily_reset (counter : Counter) (now : Nat) : Counter :=
  if now - counter.last_reset > DAY_SECONDS then
    { counter with count := 0, last_reset := now }
  else counter

/-- The cooldown block (`# 检查冷却时间`): the clock after the sleep, which
waits exactly the remaining `cooldown_seconds - elapsed` when the elapsed
time since `last_request` is below the cooldown. -/
def after_cooldown (config : ProviderConfig) (counter : Counter) (now : Nat) :
    Nat :=
  match counter.last_request with
  | some lr =>
    if now - lr < config.cooldown_seconds then
      now + (config.cooldown_seconds - (now - lr))
    else now
  | none => now

/-- Body of `check_rate_limit_sync` (and of the identical-logic async
`check_rate_limit`) acting on the resolved config and counter:
daily reset, daily-limit check (raise), cooldown sleep, counter update.
Note that `requests_per_minute` is never consulted. -/
def check_core (provider : String) (config : ProviderConfig) (counter : Counter)
    (now : Nat) : AcquireResult :=
  let counter := daily_reset counter now
  if counter.count ≥ config.requests_per_day then
    .rateLimited counter (provider ++ " 每日请求限制已达到")
  else
    let now' := after_cooldown config counter now
    .ok { counter with count := counter.count + 1, last_request := some now' } now'

/-- Result of `check_rate_limit_sync` at the level of the whole
`request_counter` state. -/
inductive SyncResult where
  | ok (s : RLState) (now : Nat)
  | rateLimited (s : RLState) (msg : String)
deriving Repr, DecidableEq

/-- `check_rate_limit_sync(provider)`: resolve config and counter with the
gemini default, run the core logic, write the counter back. -/
def check_rate_limit_sync (provider : String) (s : RLState) (now : Nat) :
    SyncResult :=
  let config := (RATE_LIMIT provider).getD gemini_config
  match check_core provider config (getCounter s provider) now with
  | .ok c now' => .ok (setCounter s provider c) now'
  | .rateLimited c msg => .rateLimited (setCounter s provider c) msg

/-- `check_rate_limit(provider)`: the async variant has the same logic
(`asyncio.sleep` instead of `time.sleep`). -/
def check_rate_limit (provider : String) (s : RLState) (now : Nat) :
    SyncResult :=
  check_rate_limit_sync provider s now

/-! ## The Gemini adapter (`analyze_with_gemini`) -/

/-- Outcome of one `gemini_model.generate_content` attempt: the returned text,
or the message of the exception it raised. -/
inductive CallOutcome where
  | success (text : String)
  | failure (msg : String)
deriving Repr, DecidableEq

/-- Whether an outcome is a raised exception. -/
def CallOutcome.isFailure : CallOutcome → Bool
  | .failure _ => true
  | .success _ => false

/-- The adapter's transient-error test:
`"rate" in error_msg or "quota" in error_msg or "429" in error_msg`
on the lower-cased message. -/
def is_rate_error (msg : String) : Bool :=
  let m := toLowerStr msg
  containsStr m "rate" || containsStr m "quota" || containsStr m "429"

/-- What one run of the adapter's retry loop did: the string it returned, the
number of `generate_content` calls it made, and the sequence of `time.sleep`
durations it performed between attempts. -/
structure AttemptTrace where
  result : String
  calls_made : Nat
  sleeps : List Nat
deriving Repr, DecidableEq

/-- The `for attempt in range(max_retries)` loop of `analyze_with_gemini`.
`attempt` is the current Python loop index and `k` the number of iterations
still to run including the current one (so `k = 0` is loop exhaustion and
`k = 1` means `attempt == max_retries - 1`).  A rate/quota/429 failure sleeps
`30 * (attempt + 1)` and retries; any other failure returns the in-band
failure string on the last attempt and otherwise sleeps 5 and retries. -/
def gemini_retry_go (calls : Nat → CallOutcome) : Nat → Nat → AttemptTrace
  | attempt, 0 => ⟨"分析失败: 超过最大重试次数", attempt, []⟩
  | attempt, k + 1 =>
    match calls attempt with
    | .success text => ⟨text, attempt + 1, []⟩
    | .failure msg =>
      if is_rate_error msg then
        let rest := gemini_retry_go calls (attempt + 1) k
        ⟨rest.result, rest.calls_made, 30 * (attempt + 1) :: rest.sleeps⟩
      else if k = 0 then
        ⟨"分析失败: " ++ msg, attempt + 1, []⟩
      else
        let rest := gemini_retry_go calls (attempt + 1) k
        ⟨rest.result, rest.calls_made, 5 :: rest.sleeps⟩

/-- Body of `analyze_with_gemini` after the rate-limit decorator: the
configuration check (`GEMINI_API_KEY` present and `init_gemini` succeeded,
abstracted as `configured`), then the retry loop. -/
def analyze_with_gemini_body (configured : Bool) (calls : Nat → CallOutcome)
    (max_retries : Nat) : AttemptTrace :=
  if configured then gemini_retry_go calls 0 max_retries
  else ⟨"Gemini API 未配置", 0, []⟩

/-- Result of the decorated `analyze_with_gemini`: either the body's return
value (with the rate-limiter state and clock after the acquire), or a
`RateLimitExceeded` propagated out of the decorator. -/
inductive AdapterResult where
  | returned (t : AttemptTrace) (s : RLState) (now : Nat)
  | rateLimitExceeded (s : RLState) (msg : String)
deriving Repr, DecidableEq

/-- `analyze_with_gemini(prompt, max_retries)`: the `@rate_limit("gemini")`
decorator runs `check_rate_limit_sync("gemini")` first, then the body runs.
The Python default for `max_retries` is 3, which is what `analyze` uses. -/
def analyze_with_gemini (configured : Bool) (calls : Nat → CallOutcome)
    (s : RLState) (now : Nat) (max_retries : Nat) : AdapterResult :=
  match check_rate_limit_sync "gemini" s now with
  | .ok s' now' => .returned (analyze_with_gemini_body configured calls max_retries) s' now'
  | .rateLimited s' msg => .rateLimitExceeded s' msg

/-! ## The router (`analyze`) -/

/-- `analyze(prompt, prefer)`: it calls only `analyze_with_gemini`; a result
that does not start with `"分析失败"` and does not contain `"未配置"` is
returned, anything else (including a raised `RateLimitExceeded`) becomes
`None`, modelled as `none`.  Returns the result together with the
rate-limiter state and clock after the call. -/
def analyze (configured : Bool) (calls : Nat → CallOutcome)
    (s : RLState) (now : Nat) : Option String × RLState × Nat :=
  match analyze_with_gemini configured calls s now 3 with
  | .returned t s' now' =>
    if !startswith t.result "分析失败" && !containsStr t.result "未配置" then
      (some t.result, s', now')
    else
      (none, s', now')
  | .rateLimitExceeded s' _ => (none, s', now)

/-! ## Callers (`analyze_market_breadth`, `get_ticker_descriptions`) -/

/-- The numeric fields extracted from `data["latest"]` by
`analyze_market_breadth` (after its int/float conversion; counts are
integers, the ratio columns carry fractional values, modelled as rationals). -/
structure BreadthLatest where
  up_4pct : Int
  down_4pct : Int
  ratio_5d : ℚ
  ratio_10d : ℚ
  up_25pct_qtr : Int
  down_25pct_qtr : Int
deriving Repr, DecidableEq

/-- Python `"\n".join(parts)`. -/
def joinLines : List String → String
  | [] => ""
  | [x] => x
  | x :: y :: rest => x ++ "\n" ++ joinLines (y :: rest)

/-- The rule-based branch of `analyze_market_breadth` (lines 354-399): the
deterministic threshold-based summary built when the AI is unavailable. -/
def rule_based_breadth (latest : BreadthLatest) : String :=
  let up4 := latest.up_4pct
  let down4 := latest.down_4pct
  let r5 := latest.ratio_5d
  let upq := latest.up_25pct_qtr
  let downq := latest.down_25pct_qtr
  let part1 :=
    if (up4 : ℚ) > (down4 : ℚ) * 1.5 then
      "📈 短期偏强：大涨股(" ++ toString up4 ++ ")明显多于大跌股(" ++ toString down4 ++ ")"
    else if (down4 : ℚ) > (up4 : ℚ) * 1.5 then
      "📉 短期偏弱：大跌股(" ++ toString down4 ++ ")明显多于大涨股(" ++ toString up4 ++ ")"
    else
      "⚖️ 短期震荡：涨跌接近（涨" ++ toString up4 ++ "/跌" ++ toString down4 ++ "）"
  let part2 :=
    if (upq : ℚ) > (downq : ℚ) * 1.5 then
      "📈 中期偏强：季度大涨股(" ++ toString upq ++ ")远多于大跌股(" ++ toString downq ++ ")"
    else if (downq : ℚ) > (upq : ℚ) * 1.5 then
      "📉 中期偏弱：季度大跌股(" ++ toString downq ++ ")远多于大涨股(" ++ toString upq ++ ")"
    else
      "⚖️ 中期震荡：季度涨跌接近（涨" ++ toString upq ++ "/跌" ++ toString downq ++ "）"
  let signals :=
    (if upq < 350 ∧ upq > 0 then
      ["🚨 重要信号：季度涨25%+仅" ++ toString upq ++ "只(<350)，大概率处于底部区域，可考虑更积极"]
     else []) ++
    (if up4 > 1000 ∧ r5 > 2 then
      ["⚠️ 过热警告：日涨4%+达" ++ toString up4 ++ "只(>1000)且5日比" ++ toString r5
        ++ "(>2)，注意止盈防回调"]
     else if up4 > 1000 then
      ["⚠️ 注意：日涨4%+达" ++ toString up4 ++ "只(>1000)，短期可能过热"]
     else []) ++
    (if down4 > 500 then
      ["⚠️ 恐慌信号：大跌股" ++ toString down4 ++ "只(>500)，可能接近短期底部"]
     else [])
  let advice :=
    if upq < 350 ∧ upq > 0 then
      "💡 建议：中期底部区域，可逢低分批布局强势股，关注反转信号确认"
    else if up4 > 1000 ∧ r5 > 2 then
      "💡 建议：短期过热，考虑部分止盈锁定利润，提高止损位保护收益"
    else if r5 > 1.2 ∧ up4 > down4 then
      "💡 建议：趋势向上，可适度加仓强势股，但控制单笔风险在2%以内"
    else if r5 < 0.8 ∧ down4 > up4 then
      "💡 建议：趋势向下，减少敞口或观望，等待企稳信号再考虑入场"
    else
      "💡 建议：观望，不建议大幅增加仓位，关注RR(风险回报比)，保持交易纪律"
  joinLines ([part1, part2] ++ signals ++ [advice])

/-- `analyze_market_breadth(data)`: `none` models a missing/empty
`data["latest"]`; otherwise try `analyze` and, by Python truthiness
(`if ai_result:`), use its text only when it is a non-`None`, non-empty
string, falling back to the rule-based summary. -/
def analyze_market_breadth (configured : Bool) (calls : Nat → CallOutcome)
    (s : RLState) (now : Nat) (data : Option BreadthLatest) : String :=
  match data with
  | none => "无数据可分析"
  | some latest =>
    match (analyze configured calls s now).1 with
    | some t => if t = "" then rule_based_breadth latest else t
    | none => rule_based_breadth latest

/-- Python dict assignment `d[k] = v` on an insertion-ordered association
list. -/
def assoc_set (m : List (String × String)) (k v : String) :
    List (String × String) :=
  if m.any (fun p => p.1 = k) then
    m.map (fun p => if p.1 = k then (k, v) else p)
  else m ++ [(k, v)]

/-- One iteration of the line-parsing loop of `get_ticker_descriptions`:
`if ':' in line`, split at the first colon, strip and upper-case the ticker,
strip the description, keep it when the ticker is in the current batch. -/
def parse_desc_line (batch : List String) (acc : List (String × String))
    (line : List Char) : List (String × String) :=
  match splitFirstColon line with
  | (_, none) => acc
  | (t, some rest) =>
    let ticker := toUpperStr (stripStr ⟨t⟩)
    let desc := stripStr ⟨rest⟩
    if batch.contains ticker then assoc_set acc ticker desc else acc

/-- The batches `tickers[i:i+10]` for `i in range(0, len(tickers), 10)`,
with an explicit structural fuel. -/
def batches_go : Nat → List String → List (List String)
  | 0, _ => []
  | _ + 1, [] => []
  | fuel + 1, x :: xs => (x :: xs).take 10 :: batches_go fuel ((x :: xs).drop 10)

/-- Batching of the ticker list into chunks of 10. -/
def batches10 (l : List String) : List (List String) := batches_go l.length l

/-- The per-batch loop of `get_ticker_descriptions`.  Each batch calls
`analyze` (with that batch's own provider-call outcomes `callsFor bi`); a
`None` result crashes on `result.strip()` with an `AttributeError`, modelled
as `Except.error`; a text result is stripped, split into lines and parsed.
The `time.sleep(2)` between batches advances the clock. -/
def ticker_desc_go (configured : Bool) (callsFor : Nat → Nat → CallOutcome) :
    List (List String) → Nat → RLState → Nat → List (String × String) →
    Except String (List (String × String))
  | [], _, _, _, acc => .ok acc
  | batch :: rest, bi, s, now, acc =>
    match analyze configured (callsFor bi) s now with
    | (none, _, _) =>
      .error "AttributeError: NoneType object has no attribute strip"
    | (some result, s', now') =>
      let lines := splitChar '\n' (stripStr result).data
      let acc' := lines.foldl (parse_desc_line batch) acc
      ticker_desc_go configured callsFor rest (bi + 1) s' (now' + 2) acc'

/-- `get_ticker_descriptions(tickers)`: empty input returns the empty dict
without any AI call; otherwise the batches are processed in order. -/
def get_ticker_descriptions (configured : Bool)
    (callsFor : Nat → Nat → CallOutcome) (s : RLState) (now : Nat)
    (tickers : List String) : Except String (List (String × String)) :=
  if tickers = [] then .ok []
  else ticker_desc_go configured callsFor (batches10 tickers) 0 s now []

/-! ## Test scaffolding used by the theorems -/

/-- The C5 scenario stub: a "429 quota" failure on the first two provider
calls and a success on the third. -/
def stub429 : Nat → CallOutcome
  | 0 => .failure "429 quota"
  | 1 => .failure "429 quota"
  | _ => .success "短期市场偏强，注意风险控制"

/-- A sequence of acquire calls on one provider's counter, at the given
clock readings (the accumulated effect of repeated `check_rate_limit_sync`
calls on that provider, whether they succeed or raise). -/
def acquire_seq (provider : String) (config : ProviderConfig) :
    List Nat → Counter → Counter
  | [], c => c
  | t :: ts, c =>
    match check_core provider config c t with
    | .ok c' _ => acquire_seq provider config ts c'
    | .rateLimited c' _ => acquire_seq provider config ts c'

end AIAnalyzer


namespace AIAnalyzer

theorem startswith_marker_append (msg : String) :
    startswith ("分析失败: " ++ msg) "分析失败" = true := by
  unfold startswith
  rw [String.data_append]
  show List.isPrefixOf ['分','析','失','败'] (['分','析','失','败',':',' '] ++ msg.data) = true
  simp [List.isPrefixOf]

theorem gemini_retry_go_fail_of (calls : Nat → CallOutcome) :
    ∀ k attempt, (∀ i, attempt ≤ i → i < attempt + k → (calls i).isFailure = true) →
      startswith (gemini_retry_go calls attempt k).result "分析失败" = true := by
  intro k
  induction k with
  | zero => intro attempt _; rfl
  | succ k ih =>
    intro attempt hf
    have hfa : (calls attempt).isFailure = true := hf attempt (Nat.le_refl _) (by omega)
    rw [gemini_retry_go]
    cases hc : calls attempt with
    | success t => rw [hc] at hfa; simp [CallOutcome.isFailure] at hfa
    | failure msg =>
      by_cases hr : is_rate_error msg = true
      · simp only [hr, if_true]
        exact ih (attempt + 1) (fun i h1 h2 => hf i (by omega) (by omega))
      · simp only [Bool.not_eq_true] at hr
        simp only [hr, Bool.false_eq_true, if_false]
        by_cases hk : k = 0
        · simp only [hk, if_true]
          exact startswith_marker_append msg
        · simp only [hk, if_false]
          exact ih (attempt + 1) (fun i h1 h2 => hf i (by omega) (by omega))

theorem gemini_retry_go_success_or_fail (calls : Nat → CallOutcome) :
    ∀ k attempt, (∃ i, attempt ≤ i ∧ i < attempt + k ∧
        calls i = .success (gemini_retry_go calls attempt k).result) ∨
      startswith (gemini_retry_go calls attempt k).result "分析失败" = true := by
  intro k
  induction k with
  | zero => intro attempt; right; rfl
  | succ k ih =>
    intro attempt
    rw [gemini_retry_go]
    cases hc : calls attempt with
    | success t =>
      left
      exact ⟨attempt, Nat.le_refl _, by omega, by rw [hc]⟩
    | failure msg =>
      by_cases hr : is_rate_error msg = true
      · simp only [hr, if_true]
        rcases ih (attempt + 1) with ⟨i, h1, h2, h3⟩ | h
        · left; exact ⟨i, by omega, by omega, h3⟩
        · right; exact h
      · simp only [Bool.not_eq_true] at hr
        simp only [hr, Bool.false_eq_true, if_false]
        by_cases hk : k = 0
        · simp only [hk, if_true]
          right
          exact startswith_marker_append msg
        · simp only [hk, if_false]
          rcases ih (attempt + 1) with ⟨i, h1, h2, h3⟩ | h
          · left; exact ⟨i, by omega, by omega, h3⟩
          · right; exact h

/-- What a successful `check_core` returns: the daily check passed on the
post-reset counter, the clock advanced by exactly the remaining cooldown, and
the counter was incremented with `last_request` set to the post-sleep time. -/
theorem check_core_ok_elim (provider : String) (config : ProviderConfig)
    (counter : Counter) (now : Nat) (c' : Counter) (now' : Nat)
    (h : check_core provider config counter now = .ok c' now') :
    (daily_reset counter now).count < config.requests_per_day ∧
    now' = after_cooldown config (daily_reset counter now) now ∧
    c' = { daily_reset counter now with
            count := (daily_reset counter now).count + 1,
            last_request := some now' } := by
  simp only [check_core] at h
  split at h
  · exact absurd h (by simp)
  · rename_i hlt
    injection h with h1 h2
    subst h2
    exact ⟨by omega, rfl, h1.symm⟩

/-- A raised `RateLimitExceeded` leaves the counter exactly as the daily
reset left it, and happens only when the post-reset count has reached the
daily limit. -/
theorem check_core_rateLimited_elim (provider : String)
    (config : ProviderConfig) (counter : Counter) (now : Nat) (c' : Counter)
    (msg : String)
    (h : check_core provider config counter now = .rateLimited c' msg) :
    c' = daily_reset counter now ∧ config.requests_per_day ≤ c'.count := by
  simp only [check_core] at h
  split at h
  · rename_i hge
    injection h with h1 h2
    subst h1
    exact ⟨rfl, hge⟩
  · exact absurd h (by simp)

theorem check_core_ok_count_le (provider : String) (config : ProviderConfig)
    (counter : Counter) (now : Nat) (c' : Counter) (now' : Nat)
    (h : check_core provider config counter now = .ok c' now') :
    c'.count ≤ config.requests_per_day := by
  rcases check_core_ok_elim provider config counter now c' now' h with ⟨hlt, _, hc⟩
  subst hc
  simpa using hlt

theorem check_core_ok_last_request (provider : String)
    (config : ProviderConfig) (counter : Counter) (now : Nat) (c' : Counter)
    (now' : Nat) (h : check_core provider config counter now = .ok c' now') :
    c'.last_request = some now' := by
  rcases check_core_ok_elim provider config counter now c' now' h with ⟨_, _, hc⟩
  subst hc
  rfl

/-- The daily reset never changes `last_request`. -/
theorem daily_reset_last_request (counter : Counter) (now : Nat) :
    (daily_reset counter now).last_request = counter.last_request := by
  unfold daily_reset
  split <;> rfl

/-- Across any sequence of acquire calls, a counter whose count respects
the daily limit keeps respecting it. -/
theorem acquire_seq_count_le (provider : String) (config : ProviderConfig) :
    ∀ (ts : List Nat) (c : Counter), c.count ≤ config.requests_per_day →
      (acquire_seq provider config ts c).count ≤ config.requests_per_day := by
  intro ts
  induction ts with
  | nil => intro c hc; exact hc
  | cons t ts ih =>
    intro c hc
    rw [acquire_seq]
    cases hcc : check_core provider config c t with
    | ok c' now' =>
      exact ih c' (check_core_ok_count_le provider config c t c' now' hcc)
    | rateLimited c' msg =>
      rcases check_core_rateLimited_elim provider config c t c' msg hcc with ⟨hc', _⟩
      subst hc'
      apply ih
      unfold daily_reset
      split
      · exact Nat.zero_le _
      · exact hc

/-- C2 (amended): across any sequence of acquire calls the daily
`count` never exceeds `requests_per_day`; a call that would exceed the daily
limit raises `RateLimitExceeded` leaving the counter unchanged when the call
is within the current daily window; and the configured per-minute limit is
never consulted at all. -/
theorem daily_limit_invariant (provider : String) (config : ProviderConfig)
    (counter : Counter) (now : Nat)
    (hle : counter.count ≤ config.requests_per_day) :
    (∀ ts : List Nat,
      (acquire_seq provider config ts counter).count ≤ config.requests_per_day) ∧
    (∀ c' msg, now - counter.last_reset ≤ DAY_SECONDS →
      check_core provider config counter now = .rateLimited c' msg →
      c' = counter) ∧
    (∀ m : Nat,
      check_core provider { config with requests_per_minute := m } counter now =
        check_core provider config counter now) := by
  refine ⟨fun ts => acquire_seq_count_le provider config ts counter hle, ?_, ?_⟩
  · intro c' msg hwin h
    rcases check_core_rateLimited_elim provider config counter now c' msg h with ⟨hc', _⟩
    subst hc'
    unfold daily_reset
    split
    · omega
    · rfl
  · intro m
    rfl

theorem daily_limit_invariant_witness :
    (∀ ts : List Nat,
      (acquire_seq "gemini" gemini_config ts ⟨0, 0, none⟩).count ≤
        gemini_config.requests_per_day) ∧
    (∀ c' msg, 5 - (0 : Nat) ≤ DAY_SECONDS →
      check_core "gemini" gemini_config ⟨0, 0, none⟩ 5 = .rateLimited c' msg →
      c' = (⟨0, 0, none⟩ : Counter)) ∧
    (∀ m : Nat,
      check_core "gemini" { gemini_config with requests_per_minute := m } ⟨0, 0, none⟩ 5 =
        check_core "gemini" gemini_config ⟨0, 0, none⟩ 5) := by
  have h := daily_limit_invariant "gemini" gemini_config ⟨0, 0, none⟩ 5 (by decide)
  exact ⟨h.1, fun c' msg _ => h.2.1 c' msg (by decide), h.2.2⟩

/-- C2 counterexample: with a per-minute limit of 2 and no cooldown, three
immediate acquire calls all succeed — the third does not raise
`RateLimitExceeded`, because the per-minute limit is never enforced. -/
theorem minute_limit_unenforced_cex :
    check_core "gemini" ⟨2, 1000, 0⟩ ⟨0, 0, none⟩ 0 = .ok ⟨1, 0, some 0⟩ 0 ∧
    check_core "gemini" ⟨2, 1000, 0⟩ ⟨1, 0, some 0⟩ 0 = .ok ⟨2, 0, some 0⟩ 0 ∧
    check_core "gemini" ⟨2, 1000, 0⟩ ⟨2, 0, some 0⟩ 0 = .ok ⟨3, 0, some 0⟩ 0 := by
  refine ⟨rfl, rfl, rfl⟩

/-- C6: a successful acquire that finds `last_request = some t₁` proceeds at a
clock `t₂` that is the call time plus exactly the remaining cooldown, so two
consecutive successful acquires on one provider are at least
`cooldown_seconds` apart. -/
theorem cooldown_spacing (provider : String) (config : ProviderConfig)
    (counter : Counter) (now₁ now₂ : Nat) (c₁ c₂ : Counter) (t₁ t₂ : Nat)
    (h1 : check_core provider config counter now₁ = .ok c₁ t₁)
    (h2 : t₁ ≤ now₂)
    (h3 : check_core provider config c₁ now₂ = .ok c₂ t₂) :
    t₂ = now₂ + (config.cooldown_seconds - (now₂ - t₁)) ∧
    config.cooldown_seconds ≤ t₂ - t₁ ∧
    c₂.last_request = some t₂ := by
  have hlr : c₁.last_request = some t₁ :=
    check_core_ok_last_request provider config counter now₁ c₁ t₁ h1
  rcases check_core_ok_elim provider config c₁ now₂ c₂ t₂ h3 with ⟨_, hnow, hc⟩
  have hlr' : (daily_reset c₁ now₂).last_request = some t₁ := by
    rw [daily_reset_last_request]; exact hlr
  have hnow2 : t₂ = if now₂ - t₁ < config.cooldown_seconds then
      now₂ + (config.cooldown_seconds - (now₂ - t₁)) else now₂ := by
    rw [hnow, after_cooldown, hlr']
  refine ⟨?_, ?_, ?_⟩
  · rw [hnow2]
    split
    · rfl
    · omega
  · rw [hnow2]
    split <;> omega
  · subst hc
    rfl

theorem cooldown_spacing_witness :
    (6 : Nat) = 0 + (gemini_config.cooldown_seconds - (0 - 0)) ∧
    gemini_config.cooldown_seconds ≤ 6 - 0 ∧
    (Counter.mk 2 0 (some 6)).last_request = some 6 :=
  cooldown_spacing "gemini" gemini_config ⟨0, 0, none⟩ 0 0
    ⟨1, 0, some 0⟩ ⟨2, 0, some 6⟩ 0 6 (by rfl) (by omega) (by rfl)

/-- C7: the first acquire after the daily boundary resets the count to 0
(observably: it proceeds with count 1) and restarts the window at its own
call time; any further successful acquire within the new window does not
reset again (its count keeps growing and the window start is unchanged). -/
theorem window_reset_once (provider : String) (config : ProviderConfig)
    (counter : Counter) (now : Nat)
    (hb : DAY_SECONDS < now - counter.last_reset)
    (hD : 0 < config.requests_per_day) :
    ∃ now', check_core provider config counter now =
        .ok ⟨1, now, some now'⟩ now' ∧
      ∀ now₂ c₂ t₂, now₂ - now ≤ DAY_SECONDS →
        check_core provider config ⟨1, now, some now'⟩ now₂ = .ok c₂ t₂ →
        c₂.count = 2 ∧ c₂.last_reset = now := by
  have hres : daily_reset counter now = ⟨0, now, counter.last_request⟩ := by
    rw [daily_reset, if_pos hb]
  refine ⟨after_cooldown config ⟨0, now, counter.last_request⟩ now, ?_, ?_⟩
  · simp only [check_core, hres]
    rw [if_neg (show ¬((⟨0, now, counter.last_request⟩ : Counter).count ≥
        config.requests_per_day) from by
      show ¬(0 ≥ config.requests_per_day)
      omega)]
  · intro now₂ c₂ t₂ hwin h
    rcases check_core_ok_elim provider config _ now₂ c₂ t₂ h with ⟨_, _, hc⟩
    have hres2 : daily_reset
        (⟨1, now, some (after_cooldown config ⟨0, now, counter.last_request⟩ now)⟩ : Counter)
        now₂ =
        ⟨1, now, some (after_cooldown config ⟨0, now, counter.last_request⟩ now)⟩ := by
      rw [daily_reset, if_neg (show ¬(now₂ -
        (⟨1, now, some (after_cooldown config ⟨0, now, counter.last_request⟩ now)⟩ :
          Counter).last_reset > DAY_SECONDS) from by
        show ¬(now₂ - now > DAY_SECONDS)
        omega)]
    rw [hres2] at hc
    subst hc
    exact ⟨rfl, rfl⟩

theorem window_reset_once_witness :
    ∃ now', check_core "gemini" gemini_config ⟨5, 0, none⟩ 86401 =
        .ok ⟨1, 86401, some now'⟩ now' ∧
      ∀ now₂ c₂ t₂, now₂ - 86401 ≤ DAY_SECONDS →
        check_core "gemini" gemini_config ⟨1, 86401, some now'⟩ now₂ = .ok c₂ t₂ →
        c₂.count = 2 ∧ c₂.last_reset = 86401 :=
  window_reset_once "gemini" gemini_config ⟨5, 0, none⟩ 86401 (by decide) (by decide)

/-- Evaluation of `analyze` when the rate-limit decorator grants the permit. -/
theorem analyze_eq_of_ok (configured : Bool) (calls : Nat → CallOutcome)
    (s : RLState) (now : Nat) (s' : RLState) (now' : Nat)
    (h : check_rate_limit_sync "gemini" s now = .ok s' now') :
    analyze configured calls s now =
      (if !startswith (analyze_with_gemini_body configured calls 3).result "分析失败" &&
          !containsStr (analyze_with_gemini_body configured calls 3).result "未配置" then
        (some (analyze_with_gemini_body configured calls 3).result, s', now')
      else (none, s', now')) := by
  unfold analyze analyze_with_gemini
  rw [h]

/-- Evaluation of `analyze` when the decorator raises `RateLimitExceeded`. -/
theorem analyze_eq_of_rateLimited (configured : Bool) (calls : Nat → CallOutcome)
    (s : RLState) (now : Nat) (s' : RLState) (msg : String)
    (h : check_rate_limit_sync "gemini" s now = .rateLimited s' msg) :
    analyze configured calls s now = (none, s', now) := by
  unfold analyze analyze_with_gemini
  rw [h]

theorem setCounter_gemini_claude (s : RLState) (c : Counter) :
    (setCounter s "gemini" c).claude = s.claude := by
  rw [setCounter, if_neg (by decide)]

theorem check_sync_gemini_ok_claude (s : RLState) (now : Nat) (s' : RLState)
    (now' : Nat) (h : check_rate_limit_sync "gemini" s now = .ok s' now') :
    s'.claude = s.claude := by
  simp only [check_rate_limit_sync] at h
  cases hc : check_core "gemini" ((RATE_LIMIT "gemini").getD gemini_config)
      (getCounter s "gemini") now with
  | ok c n =>
    rw [hc] at h
    injection h with h1 h2
    subst h1
    exact setCounter_gemini_claude s c
  | rateLimited c m =>
    rw [hc] at h
    exact SyncResult.noConfusion h

theorem check_sync_gemini_rateLimited_claude (s : RLState) (now : Nat)
    (s' : RLState) (msg : String)
    (h : check_rate_limit_sync "gemini" s now = .rateLimited s' msg) :
    s'.claude = s.claude := by
  simp only [check_rate_limit_sync] at h
  cases hc : check_core "gemini" ((RATE_LIMIT "gemini").getD gemini_config)
      (getCounter s "gemini") now with
  | ok c n =>
    rw [hc] at h
    exact SyncResult.noConfusion h
  | rateLimited c m =>
    rw [hc] at h
    injection h with h1 h2
    subst h1
    exact setCounter_gemini_claude s c

/-- C1 (amended): `analyze` consults only Gemini.  Any text it returns came
from a Gemini provider call, and the Claude counter is never touched. -/
theorem analyze_gemini_only (configured : Bool) (calls : Nat → CallOutcome)
    (s : RLState) (now : Nat) (t : String)
    (h : (analyze configured calls s now).1 = some t) :
    (∃ i, i < 3 ∧ calls i = CallOutcome.success t) ∧
    (analyze configured calls s now).2.1.claude = s.claude := by
  cases hc : check_rate_limit_sync "gemini" s now with
  | rateLimited s' msg =>
    rw [analyze_eq_of_rateLimited configured calls s now s' msg hc] at h
    exact absurd h (by simp)
  | ok s' now' =>
    rw [analyze_eq_of_ok configured calls s now s' now' hc] at h ⊢
    by_cases hcond : (!startswith (analyze_with_gemini_body configured calls 3).result "分析失败" &&
        !containsStr (analyze_with_gemini_body configured calls 3).result "未配置") = true
    · rw [if_pos hcond] at h ⊢
      refine ⟨?_, check_sync_gemini_ok_claude s now s' now' hc⟩
      have ht : (analyze_with_gemini_body configured calls 3).result = t := by
        simpa using h
      cases configured with
      | false =>
        exfalso
        rw [analyze_with_gemini_body] at hcond
        simp only [Bool.false_eq_true, if_false] at hcond
        exact absurd hcond (by decide)
      | true =>
        rw [analyze_with_gemini_body] at ht hcond
        simp only [if_true] at ht hcond
        rcases gemini_retry_go_success_or_fail calls 3 0 with ⟨i, h1, h2, h3⟩ | hsw
        · exact ⟨i, by omega, by rw [h3, ht]⟩
        · rw [hsw] at hcond
          simp at hcond
    · rw [if_neg hcond] at h
      exact absurd h (by simp)

theorem analyze_gemini_only_witness :
    (∃ i, i < 3 ∧ (fun _ : Nat => CallOutcome.success "市场走强") i =
        CallOutcome.success "市场走强") ∧
    (analyze true (fun _ => CallOutcome.success "市场走强")
        ⟨⟨0, 0, none⟩, ⟨0, 0, none⟩⟩ 0).2.1.claude = (⟨0, 0, none⟩ : Counter) :=
  analyze_gemini_only true (fun _ => CallOutcome.success "市场走强")
    ⟨⟨0, 0, none⟩, ⟨0, 0, none⟩⟩ 0 "市场走强" (by rfl)

/-- C1 counterexample: with the Gemini daily quota exhausted and a healthy
Claude (fresh counter, and a provider stub that would answer successfully),
`analyze` returns `none`, not the other provider's result: there is no
failover. -/
theorem analyze_no_failover_cex :
    (analyze true (fun _ => CallOutcome.success "B 提供者的结果")
        ⟨⟨1000, 0, none⟩, ⟨0, 0, none⟩⟩ 0).1 = none := by
  rfl

/-- C4: when every provider call fails, `analyze` returns the `None`
sentinel (`none`), never an error and never a text. -/
theorem all_providers_fail_returns_none (configured : Bool)
    (calls : Nat → CallOutcome) (s : RLState) (now : Nat)
    (hf : ∀ i, i < 3 → (calls i).isFailure = true) :
    (analyze configured calls s now).1 = none := by
  cases hc : check_rate_limit_sync "gemini" s now with
  | rateLimited s' msg =>
    rw [analyze_eq_of_rateLimited configured calls s now s' msg hc]
  | ok s' now' =>
    rw [analyze_eq_of_ok configured calls s now s' now' hc]
    cases configured with
    | false => rfl
    | true =>
      have hsw : startswith (analyze_with_gemini_body true calls 3).result "分析失败" = true := by
        rw [analyze_with_gemini_body]
        exact gemini_retry_go_fail_of calls 3 0 (fun i h1 h2 => hf i (by omega))
      rw [hsw]
      rfl

theorem all_providers_fail_returns_none_witness :
    (analyze true (fun _ => CallOutcome.failure "503 service unavailable")
        ⟨⟨0, 0, none⟩, ⟨0, 0, none⟩⟩ 0).1 = none :=
  all_providers_fail_returns_none true (fun _ => CallOutcome.failure "503 service unavailable")
    ⟨⟨0, 0, none⟩, ⟨0, 0, none⟩⟩ 0 (fun _ _ => rfl)

/-- C3 (amended): a fatal (non-rate/quota/429) error is retried like any
other error: with every attempt failing on message `msg`, the adapter makes
exactly `k = max_retries` provider calls, sleeping 5 seconds between
attempts, and only after the last attempt returns the in-band failure
string. -/
theorem fatal_error_retry_to_bound (msg : String)
    (hm : is_rate_error msg = false) :
    ∀ k attempt, 0 < k →
      gemini_retry_go (fun _ => CallOutcome.failure msg) attempt k =
        ⟨"分析失败: " ++ msg, attempt + k, List.replicate (k - 1) 5⟩ := by
  intro k
  induction k with
  | zero => intro attempt h; omega
  | succ k ih =>
    intro attempt _
    rw [gemini_retry_go]
    simp only [hm, Bool.false_eq_true, if_false]
    by_cases hk : k = 0
    · subst hk
      simp only [if_pos rfl]
      rfl
    · rw [if_neg hk]
      rw [ih (attempt + 1) (by omega)]
      rw [show attempt + 1 + k = attempt + (k + 1) from by omega]
      rw [show k + 1 - 1 = (k - 1) + 1 from by omega, List.replicate_succ]

theorem fatal_error_retry_to_bound_witness :
    gemini_retry_go (fun _ => CallOutcome.failure "bad request") 0 3 =
      ⟨"分析失败: bad request", 0 + 3, List.replicate (3 - 1) 5⟩ :=
  fatal_error_retry_to_bound "bad request" (by decide) 3 0 (by omega)

/-- C3 counterexample: on the fatal error message "invalid api key" the
adapter does not stop after the first attempt: it performs 3 provider calls
(2 retries, each after a 5-second sleep) before returning the failure
string. -/
theorem fatal_error_retried_cex :
    gemini_retry_go (fun _ => CallOutcome.failure "invalid api key") 0 3 =
      ⟨"分析失败: invalid api key", 3, [5, 5]⟩ ∧
    (gemini_retry_go (fun _ => CallOutcome.failure "invalid api key") 0 3).calls_made ≠ 1 := by
  exact ⟨by decide, by decide⟩

/-- C5: with a "429 quota" failure on the first two calls and a success on
the third, the adapter returns the success text after exactly 2 retries
(3 provider calls) with linearly increasing 30s, 60s backoff and no failure
string; and when every attempt fails with a rate-marker error it retries up
to its fixed bound of 3 attempts with backoff 30, 60, 90 and only then gives
up. -/
theorem transient_retry_scenario :
    gemini_retry_go stub429 0 3 = ⟨"短期市场偏强，注意风险控制", 3, [30, 60]⟩ ∧
    startswith "短期市场偏强，注意风险控制" "分析失败" = false ∧
    (∀ calls : Nat → CallOutcome,
      (∀ i, i < 3 → ∃ m, calls i = CallOutcome.failure m ∧ is_rate_error m = true) →
      gemini_retry_go calls 0 3 = ⟨"分析失败: 超过最大重试次数", 3, [30, 60, 90]⟩) := by
  refine ⟨by decide, by decide, ?_⟩
  intro calls hc
  rcases hc 0 (by omega) with ⟨m0, e0, r0⟩
  rcases hc 1 (by omega) with ⟨m1, e1, r1⟩
  rcases hc 2 (by omega) with ⟨m2, e2, r2⟩
  rw [gemini_retry_go]
  simp only [e0, r0, if_true]
  rw [show (0 : Nat) + 1 = 1 from rfl, gemini_retry_go]
  simp only [e1, r1, if_true]
  rw [show (1 : Nat) + 1 = 2 from rfl, gemini_retry_go]
  simp only [e2, r2, if_true]
  rfl

theorem transient_retry_scenario_witness :
    gemini_retry_go (fun _ => CallOutcome.failure "429 rate") 0 3 =
      ⟨"分析失败: 超过最大重试次数", 3, [30, 60, 90]⟩ :=
  transient_retry_scenario.2.2 (fun _ => CallOutcome.failure "429 rate")
    (fun _ _ => ⟨"429 rate", rfl, by decide⟩)

/-- C9: for a provider name other than "gemini" and "claude",
`check_rate_limit_sync` falls back to Gemini's configuration, reads and
mutates Gemini's counter, and leaves Claude's alone; and the async
`check_rate_limit` has the same behaviour. -/
theorem unknown_provider_uses_gemini_state (p : String) (s : RLState)
    (now : Nat) (h1 : p ≠ "gemini") (h2 : p ≠ "claude") :
    check_rate_limit_sync p s now =
      (match check_core p gemini_config s.gemini now with
       | .ok c now' => .ok { s with gemini := c } now'
       | .rateLimited c msg => .rateLimited { s with gemini := c } msg) ∧
    check_rate_limit p s now = check_rate_limit_sync p s now := by
  refine ⟨?_, rfl⟩
  simp only [check_rate_limit_sync, RATE_LIMIT, getCounter, setCounter,
    if_neg h1, if_neg h2, Option.getD_none]

theorem unknown_provider_uses_gemini_state_witness :
    check_rate_limit_sync "openai" ⟨⟨7, 0, none⟩, ⟨3, 0, none⟩⟩ 0 =
      (match check_core "openai" gemini_config ⟨7, 0, none⟩ 0 with
       | .ok c now' => .ok ⟨c, ⟨3, 0, none⟩⟩ now'
       | .rateLimited c msg => .rateLimited ⟨c, ⟨3, 0, none⟩⟩ msg) ∧
    check_rate_limit "openai" ⟨⟨7, 0, none⟩, ⟨3, 0, none⟩⟩ 0 =
      check_rate_limit_sync "openai" ⟨⟨7, 0, none⟩, ⟨3, 0, none⟩⟩ 0 :=
  unknown_provider_uses_gemini_state "openai" ⟨⟨7, 0, none⟩, ⟨3, 0, none⟩⟩ 0
    (by decide) (by decide)

/-- C10: adapter failure is signalled in band, as ordinary text: when every
provider call fails the adapter returns a string starting with "分析失败";
when unconfigured it returns a string containing "未配置" (for any stub);
and `analyze` classifies by string content, so a genuine provider text that
starts with "分析失败" is converted to `none`. -/
theorem failure_in_band_as_text :
    (∀ calls : Nat → CallOutcome, (∀ i, i < 3 → (calls i).isFailure = true) →
      startswith (analyze_with_gemini_body true calls 3).result "分析失败" = true) ∧
    (∀ calls : Nat → CallOutcome,
      (analyze_with_gemini_body false calls 3).result = "Gemini API 未配置") ∧
    (analyze true (fun _ => CallOutcome.success "分析失败：这是模型认真给出的回答")
        ⟨⟨0, 0, none⟩, ⟨0, 0, none⟩⟩ 0).1 = none := by
  refine ⟨?_, fun calls => rfl, by rfl⟩
  intro calls hf
  rw [analyze_with_gemini_body]
  exact gemini_retry_go_fail_of calls 3 0 (fun i ha hb => hf i (by omega))

theorem failure_in_band_as_text_witness :
    startswith (analyze_with_gemini_body true
      (fun _ => CallOutcome.failure "503 error") 3).result "分析失败" = true :=
  failure_in_band_as_text.1 (fun _ => CallOutcome.failure "503 error")
    (fun _ _ => rfl)

theorem joinLines_cons_cons_ne_empty (x y : String) (rest : List String) :
    joinLines (x :: y :: rest) ≠ "" := by
  intro h
  have hl := congrArg String.length h
  rw [joinLines, String.length_append, String.length_append] at hl
  have h1 : ("\n" : String).length = 1 := rfl
  have h0 : ("" : String).length = 0 := rfl
  omega

theorem rule_based_breadth_ne_empty (latest : BreadthLatest) :
    rule_based_breadth latest ≠ "" :=
  joinLines_cons_cons_ne_empty _ _ _

/-- C8: with all provider calls failing (so `analyze` returns `none`),
`analyze_market_breadth` does fall back to the non-empty rule-based summary,
but `get_ticker_descriptions` crashes on `result.strip()` with an
`AttributeError` instead of producing any reply. -/
theorem ticker_descriptions_crash_on_none :
    get_ticker_descriptions true (fun _ _ => CallOutcome.failure "503 service unavailable")
        ⟨⟨0, 0, none⟩, ⟨0, 0, none⟩⟩ 0 ["AAPL"] =
      .error "AttributeError: NoneType object has no attribute strip" ∧
    analyze_market_breadth true (fun _ => CallOutcome.failure "503 service unavailable")
        ⟨⟨0, 0, none⟩, ⟨0, 0, none⟩⟩ 0 (some ⟨800, 200, 1.5, 1.3, 400, 100⟩) =
      rule_based_breadth ⟨800, 200, 1.5, 1.3, 400, 100⟩ ∧
    rule_based_breadth ⟨800, 200, 1.5, 1.3, 400, 100⟩ ≠ "" :=
  ⟨by rfl, by rfl, rule_based_breadth_ne_empty _⟩

end AIAnalyzer
